import Mathlib

/-!
Verification of the task-offload and reply-delivery pipeline of dingtalksd.py
(a DingTalk chat bot that renders Stable Diffusion images for text prompts).

The Python source is shallowly embedded as follows.

* A PIL image is a width, a height and a pixel map; Image.new, Image.paste and
  the PNG re-encoding of image.save are transcribed directly.
* The StableDiffusionPipeline handle (self dot pipe) is an external collaborator:
  it is a function of exactly the call parameters the source passes (prompt,
  height, width, num_inference_steps, num_images_per_prompt) returning either
  the list of generated images or a raised exception.
* The dingtalk client (upload_to_dingtalk, reply_markdown) is likewise a pair of
  functions that may raise.
* Raised Python exceptions are Except.error carrying the exception text.
* Side effects (logger calls, the upload call, the reply_markdown call) are
  collected in an event trace returned alongside each result, in program order.
* The elapsed wall-clock seconds (a Python float produced by time.time
  subtraction) is modelled as a whole number of microseconds, the resolution of
  those floats for the durations at hand.
* The multiprocessing queue is modelled from the spec (the standard library is
  outside this repository): a bounded FIFO whose put blocks when full.
-/

namespace DingtalkSD

/-- Raised Python exception, carrying the exception text. -/
abbrev PyErr := String

/-- An RGB pixel value. -/
structure Color where
  r : Nat
  g : Nat
  b : Nat
deriving DecidableEq

/-- A PIL image: dimensions plus a pixel map. -/
structure Img where
  width : Nat
  height : Nat
  px : Nat → Nat → Color

/-- PIL Image.new for mode RGB: a canvas of the given size filled with black. -/
def Img.new (w h : Nat) : Img :=
  { width := w, height := h, px := fun _ _ => { r := 0, g := 0, b := 0 } }

/-- PIL dst.paste(src, (ox, oy)): pixels inside the pasted rectangle come from
src, all other pixels keep their previous value; the destination size is
unchanged. -/
def Img.paste (dst : Img) (src : Img) (ox oy : Nat) : Img :=
  { dst with px := fun x y =>
      if ox ≤ x ∧ x < ox + src.width ∧ oy ≤ y ∧ y < oy + src.height then
        src.px (x - ox) (y - oy)
      else dst.px x y }

/-- Result of image.save(fp, PNG) followed by fp.getvalue(): the byte payload is
modelled as the container format tag together with the encoded image content. -/
structure EncodedImage where
  format : String
  img : Img

/-- Normalized projection of a deserialized dingtalk_stream.ChatbotMessage: the
message text (incoming_message.text.content) and the originating conversation
identity. -/
structure IncomingMessage where
  textContent : String
  conversationId : Nat
deriving DecidableEq

/-- Python str.strip() on the prompt: remove leading and trailing whitespace.
Transcribed over the character list so that it evaluates inside the kernel; it
agrees with Python on the ASCII whitespace appearing in the prompts considered
here. -/
def pyStrip (s : String) : String :=
  String.mk (((s.data.dropWhile Char.isWhitespace).reverse.dropWhile
    Char.isWhitespace).reverse)

/-- Observable effects of the pipeline, in program order: the five logger calls
of the source and the two dingtalk-client calls. The upload event records
whether the image_content argument was present (bytes) or Python None. -/
inductive Event where
  | logReceived (m : IncomingMessage)
  | logGetTask (m : IncomingMessage)
  | logSdFailed (err : PyErr)
  | logNotEnoughImages (size : Nat)
  | logMediaId (media_id : String)
  | logReplyImage (response : String)
  | uploadCall (hasImage : Bool)
  | replyMarkdownCall (title : String) (content : String) (m : IncomingMessage)
deriving DecidableEq

/-- A trace of observable effects. -/
abbrev Trace := List Event

/-- The StableDiffusionPipeline handle: external collaborator, modelled as a
function of the call parameters the source uses. The arguments are the prompt,
height, width, num_inference_steps (none means the library default) and
num_images_per_prompt (the library default is 1); the result is the images
field of the returned object, or a raised exception. -/
structure Pipe where
  call : (prompt : String) → (height : Nat) → (width : Nat) →
    (num_inference_steps : Option Nat) → (num_images_per_prompt : Nat) →
    Except PyErr (List Img)

/-- The dingtalk client used by reply_image: external collaborator. The upload
takes the image_content argument, which the source can pass as Python None. -/
structure DingtalkClient where
  upload_to_dingtalk : Option EncodedImage → Except PyErr String
  reply_markdown : (title : String) → (content : String) →
    (incoming_message : IncomingMessage) → Except PyErr String

/-- The complete_task dict built in process_incoming_message: image bytes (or
Python None), the originating message and the measured elapsed time. -/
structure CompleteTask where
  image : Option EncodedImage
  incoming_message : IncomingMessage
  elapse_micros : Nat

/-- Python truthiness of the complete_task value tested by the guard
`if not complete_task` in process_complete: the dict literal built by the only
caller always has three keys, and a non-empty dict is always truthy. -/
def CompleteTask.pyTruthy (_ : CompleteTask) : Bool := true

/-- Python round(x, 3) on the elapsed seconds: with the float modelled as a
whole number of microseconds, rounding to three decimal places is rounding to a
whole number of milliseconds with the round-half-to-even tie rule of Python. -/
def roundMillis (micros : Nat) : Nat :=
  let q := micros / 1000
  let r := micros % 1000
  if r < 500 then q
  else if 500 < r then q + 1
  else if q % 2 = 0 then q else q + 1

/-- The one to three fractional digits of a millisecond count under Python float
formatting: three decimal digits with trailing zeros removed, at least one digit
kept. -/
def fracDigitsStr (k : Nat) : String :=
  if k % 10 ≠ 0 then
    String.mk [Nat.digitChar (k / 100 % 10), Nat.digitChar (k / 10 % 10),
      Nat.digitChar (k % 10)]
  else if k / 10 % 10 ≠ 0 then
    String.mk [Nat.digitChar (k / 100 % 10), Nat.digitChar (k / 10 % 10)]
  else if k / 100 % 10 ≠ 0 then String.mk [Nat.digitChar (k / 100 % 10)]
  else "0"

/-- Python str() of the float round(x, 3), a value equal to a whole number of
milliseconds: the shortest decimal that round-trips, that is the integer part,
a decimal point, and the fractional digits with trailing zeros removed (at
least one digit is always shown: str of 2.0 is 2.0). -/
def floatStr3 (millis : Nat) : String :=
  toString (millis / 1000) ++ "." ++ fracDigitsStr (millis % 1000)

/-- The string interpolated for %s from round(elapse_seconds, 3) in
reply_image. -/
def elapsedStr (elapse_micros : Nat) : String :=
  floatStr3 (roundMillis elapse_micros)

/-- The markdown body built in reply_image: the format string of the source with
the stripped prompt, the media id and round(elapse_seconds, 3) interpolated. -/
def replyContent (prompt media_id cost : String) : String :=
  "#### Prompts: " ++ prompt ++ "\n\n" ++
  "![image](" ++ media_id ++ ")" ++ "\n\n" ++
  "> cost " ++ cost ++ "s" ++ "\n" ++
  "> \n" ++
  "> " ++ "Powered by Stable Diffusion" ++ "\n" ++
  "> \n" ++
  "> via https://github.com/chzealot/dingtalk-stable-diffusion\n"

/-- txt2img_one: warmup pass, one-image generation at 512 by 512, indexing
images[0] (an IndexError if the list is empty), then PNG re-encoding. -/
def txt2img_one (pipe : Pipe) (incoming_message : IncomingMessage) :
    Trace × Except PyErr (Option EncodedImage) :=
  let prompt := pyStrip incoming_message.textContent
  match pipe.call prompt 512 512 (some 1) 1 with
  | .error e => ([], .error e)
  | .ok _ =>
    match pipe.call prompt 512 512 none 1 with
    | .error e => ([], .error e)
    | .ok images =>
      match images with
      | [] => ([], .error "IndexError: list index out of range")
      | image :: _ => ([], .ok (some { format := "PNG", img := image }))

/-- txt2img_four: warmup pass, four-image generation at 512 by 512; when fewer
than four images come back the error is logged and Python None is returned
(the branch below the four-element match is exactly the len(images) < 4 guard
of the source); otherwise the four tiles are pasted onto a fresh 1024 by 1024
canvas at (0,0), (512,0), (0,512), (512,512) and the canvas is PNG-encoded. -/
def txt2img_four (pipe : Pipe) (incoming_message : IncomingMessage) :
    Trace × Except PyErr (Option EncodedImage) :=
  let prompt := pyStrip incoming_message.textContent
  match pipe.call prompt 512 512 (some 1) 1 with
  | .error e => ([], .error e)
  | .ok _ =>
    match pipe.call prompt 512 512 none 4 with
    | .error e => ([], .error e)
    | .ok images =>
      match images with
      | img0 :: img1 :: img2 :: img3 :: _ =>
        let img_merge := Img.new 1024 1024
        let img_merge := img_merge.paste img0 0 0
        let img_merge := img_merge.paste img1 512 0
        let img_merge := img_merge.paste img2 0 512
        let img_merge := img_merge.paste img3 512 512
        ([], .ok (some { format := "PNG", img := img_merge }))
      | _ => ([Event.logNotEnoughImages images.length], .ok none)

/-- txt2img: dispatch on self._enable_four_images. -/
def txt2img (enable_four_images : Bool) (pipe : Pipe)
    (incoming_message : IncomingMessage) :
    Trace × Except PyErr (Option EncodedImage) :=
  if enable_four_images then txt2img_four pipe incoming_message
  else txt2img_one pipe incoming_message

/-- reply_image: upload the image content (possibly Python None), log the media
id, build the markdown body and post it. Exceptions raised by either client
call propagate to the caller. -/
def reply_image (client : DingtalkClient) (image_content : Option EncodedImage)
    (elapse_micros : Nat) (incoming_message : IncomingMessage) :
    Trace × Except PyErr String :=
  match client.upload_to_dingtalk image_content with
  | .error e => ([Event.uploadCall image_content.isSome], .error e)
  | .ok media_id =>
    let title := "Stable Diffusion txt2img"
    let content := replyContent (pyStrip incoming_message.textContent) media_id
      (elapsedStr elapse_micros)
    match client.reply_markdown title content incoming_message with
    | .error e =>
      ([Event.uploadCall image_content.isSome, Event.logMediaId media_id,
        Event.replyMarkdownCall title content incoming_message], .error e)
    | .ok response =>
      ([Event.uploadCall image_content.isSome, Event.logMediaId media_id,
        Event.replyMarkdownCall title content incoming_message], .ok response)

/-- process_complete: the `if not complete_task` guard (vacuous on the
three-key dict built by the caller), then reply_image and the reply log.
Exceptions raised by reply_image propagate. -/
def process_complete (client : DingtalkClient) (complete_task : CompleteTask) :
    Trace × Except PyErr Unit :=
  if complete_task.pyTruthy = false then ([], .ok ())
  else
    match reply_image client complete_task.image complete_task.elapse_micros
        complete_task.incoming_message with
    | (t, .error e) => (t, .error e)
    | (t, .ok response) => (t ++ [Event.logReplyImage response], .ok ())

/-- process_incoming_message: log the task, run txt2img under try/except (an
exception is logged and the task abandoned with a plain return), otherwise
build the complete_task dict and run process_complete outside the try block, so
exceptions from the delivery path propagate to the caller. -/
def process_incoming_message (enable_four_images : Bool) (pipe : Pipe)
    (client : DingtalkClient) (elapse_micros : Nat)
    (incoming_message : IncomingMessage) : Trace × Except PyErr Unit :=
  match txt2img enable_four_images pipe incoming_message with
  | (t1, .error e) =>
    ([Event.logGetTask incoming_message] ++ t1 ++ [Event.logSdFailed e], .ok ())
  | (t1, .ok image_content) =>
    let complete_task : CompleteTask :=
      { image := image_content, incoming_message := incoming_message,
        elapse_micros := elapse_micros }
    match process_complete client complete_task with
    | (t2, r) => ([Event.logGetTask incoming_message] ++ t1 ++ t2, r)

/-- Modelled from the spec: the TaskChannel, multiprocessing.Queue(maxsize=128)
of the Python standard library (the queue implementation is outside this
repository): a bounded FIFO queue of pending incoming requests. -/
structure MPQueue where
  maxsize : Nat
  items : List IncomingMessage
deriving DecidableEq

/-- Outcome of a put call on the bounded queue. -/
inductive PutResult where
  | enqueued (q : MPQueue)
  | blocked
deriving DecidableEq

/-- Modelled from the spec: queue.put appends when there is room and otherwise
blocks the producer until space frees (it never rejects the request). -/
def MPQueue.put (q : MPQueue) (m : IncomingMessage) : PutResult :=
  if q.items.length < q.maxsize then .enqueued { q with items := q.items ++ [m] }
  else .blocked

/-- Modelled from the spec: queue.get pops the oldest entry; on an empty queue
the consumer blocks, modelled as none. -/
def MPQueue.get (q : MPQueue) : Option (IncomingMessage × MPQueue) :=
  match q.items with
  | [] => none
  | m :: rest => some (m, { q with items := rest })

/-- Constant from the dingtalk_stream SDK: the acknowledgment status returned by
a callback handler that has handled the event. -/
def STATUS_OK : Nat := 200

/-- A raw inbound callback event (callback.data) before deserialization. -/
structure CallbackData where
  raw : String
deriving DecidableEq

/-- Outcome of the async process handler: a returned acknowledgment pair, a
producer blocked on the full task queue (the return statement has not run yet),
or an exception propagating out of the handler. -/
inductive ProcessOutcome where
  | acked (status : Nat) (text : String)
  | blockedOnQueue
  | raised (e : PyErr)
deriving DecidableEq

/-- The async process callback handler: deserialize (ChatbotMessage.from_dict,
an external call that may raise: there is no try/except around it, so a raised
exception propagates out of the handler before any logging), log receipt, then
either put the message on the task queue (subprocess mode) or run
process_incoming_message inline, and finally return AckMessage.STATUS_OK with
OK. The middle component of the result is the task queue after the call. -/
def process (subprocess enable_four_images : Bool)
    (deser : CallbackData → Except PyErr IncomingMessage) (pipe : Pipe)
    (client : DingtalkClient) (elapse_micros : Nat) (q : MPQueue)
    (callback : CallbackData) : Trace × MPQueue × ProcessOutcome :=
  match deser callback with
  | .error e => ([], q, .raised e)
  | .ok incoming_message =>
    let t0 : Trace := [Event.logReceived incoming_message]
    if subprocess then
      match q.put incoming_message with
      | .enqueued q2 => (t0, q2, .acked STATUS_OK "OK")
      | .blocked => (t0, q, .blockedOnQueue)
    else
      match process_incoming_message enable_four_images pipe client
          elapse_micros incoming_message with
      | (t1, .error e) => (t0 ++ t1, q, .raised e)
      | (t1, .ok _) => (t0 ++ t1, q, .acked STATUS_OK "OK")

/-- do_sd_process: the worker loop. The endless while True over blocking queue
gets is modelled on the finite sequence of tasks the queue delivers, each paired
with its measured elapsed time; an exception escaping process_incoming_message
is uncaught in the loop and terminates the worker, leaving later tasks
unprocessed. -/
def do_sd_process (enable_four_images : Bool) (pipe : Pipe)
    (client : DingtalkClient) : List (IncomingMessage × Nat) →
    Trace × Except PyErr Unit
  | [] => ([], .ok ())
  | (m, elapse_micros) :: rest =>
    match process_incoming_message enable_four_images pipe client elapse_micros m with
    | (t, .error e) => (t, .error e)
    | (t, .ok _) =>
      match do_sd_process enable_four_images pipe client rest with
      | (t2, r2) => (t ++ t2, r2)

/-- The command-line options consumed by the bot constructor (only the fields
the embedded core reads). -/
structure Options where
  subprocess : Bool
  device : Option String

/-- The mutable attributes of a StableDiffusionBot instance that the embedded
core reads or writes. -/
structure BotState where
  enableFourImages : Bool
  taskQueue : MPQueue
  subprocess : Bool
  pipeLoaded : Bool

/-- StableDiffusionBot.__init__: the pipe is created inline when subprocess
mode is off, _enable_four_images is set to True, and the task queue is created
with maxsize 128. -/
def StableDiffusionBot.init (options : Options) : BotState :=
  { enableFourImages := true
    taskQueue := { maxsize := 128, items := [] }
    subprocess := options.subprocess
    pipeLoaded := !options.subprocess }

/-- The state transitions of a running bot: an inbound callback handled by
process (which can only change the task queue), the worker creating its pipe at
startup, and the worker dequeuing a task (processing a task mutates no bot
attribute). -/
inductive BotStep : BotState → BotState → Prop where
  | ingest (s : BotState) (deser : CallbackData → Except PyErr IncomingMessage)
      (pipe : Pipe) (client : DingtalkClient) (elapse_micros : Nat)
      (cb : CallbackData) :
      BotStep s { s with taskQueue :=
        (process s.subprocess s.enableFourImages deser pipe client elapse_micros
          s.taskQueue cb).2.1 }
  | workerStart (s : BotState) : BotStep s { s with pipeLoaded := true }
  | workerGet (s : BotState) (m : IncomingMessage) (q : MPQueue) :
      s.taskQueue.get = some (m, q) → BotStep s { s with taskQueue := q }

/-- States reachable from a given initial state by bot steps. -/
inductive Reachable (s0 : BotState) : BotState → Prop where
  | refl : Reachable s0 s0
  | step {s t : BotState} : Reachable s0 s → BotStep s t → Reachable s0 t

/-- Characters after the final decimal point of a rendered number. -/
def decimalDigitCount (s : String) : Nat :=
  (s.data.reverse.takeWhile (fun c => c ≠ '.')).length

/-- Format tag of a txt2img result, when one was produced. -/
def resultFormat (r : Trace × Except PyErr (Option EncodedImage)) :
    Option String :=
  match r.2 with
  | .ok (some enc) => some enc.format
  | _ => none

/-- Dimensions of a txt2img result, when one was produced. -/
def resultSize (r : Trace × Except PyErr (Option EncodedImage)) :
    Option (Nat × Nat) :=
  match r.2 with
  | .ok (some enc) => some (enc.img.width, enc.img.height)
  | _ => none

/-- Pixel of a txt2img result, when one was produced. -/
def resultPx (r : Trace × Except PyErr (Option EncodedImage)) (x y : Nat) :
    Option Color :=
  match r.2 with
  | .ok (some enc) => some (enc.img.px x y)
  | _ => none

/-- Uniform tile fixture: a 512 by 512 image of one color. -/
def tileOf (c : Color) : Img :=
  { width := 512, height := 512, px := fun _ _ => c }

/-- Fixture message with a plain prompt. -/
def msgRedCat : IncomingMessage := { textContent := "a red cat", conversationId := 1 }

/-- Fixture message with leading and trailing whitespace in the prompt. -/
def msgBlueSky : IncomingMessage :=
  { textContent := "  a blue sky  ", conversationId := 2 }

/-- Fixture message for the first queued task. -/
def msgTaskA : IncomingMessage := { textContent := "task A", conversationId := 3 }

/-- Fixture message for a subsequently queued task. -/
def msgTaskB : IncomingMessage := { textContent := "task B", conversationId := 4 }

/-- Fixture engine: four distinct marker tiles for the four-image call, a single
red tile for any other call. -/
def pipeFourMarks : Pipe :=
  { call := fun _ _ _ _ n =>
      if n = 4 then
        .ok [tileOf { r := 255, g := 0, b := 0 }, tileOf { r := 0, g := 255, b := 0 },
          tileOf { r := 0, g := 0, b := 255 }, tileOf { r := 255, g := 255, b := 0 }]
      else .ok [tileOf { r := 255, g := 0, b := 0 }] }

/-- Fixture engine: as many gray tiles as requested. -/
def pipeReplicate : Pipe :=
  { call := fun _ _ _ _ n => .ok (List.replicate n (tileOf { r := 7, g := 7, b := 7 })) }

/-- Fixture engine whose every call raises. -/
def pipeRaises : Pipe := { call := fun _ _ _ _ _ => .error "boom" }

/-- Fixture engine returning only three tiles for the four-image call. -/
def pipeThree : Pipe :=
  { call := fun _ _ _ _ n =>
      if n = 4 then
        .ok [tileOf { r := 255, g := 0, b := 0 }, tileOf { r := 0, g := 255, b := 0 },
          tileOf { r := 0, g := 0, b := 255 }]
      else .ok [tileOf { r := 255, g := 0, b := 0 }] }

/-- Fixture client for which both calls succeed. -/
def clientOk : DingtalkClient :=
  { upload_to_dingtalk := fun _ => .ok "media-1"
    reply_markdown := fun _ _ _ => .ok "response-1" }

/-- Fixture client whose upload raises. -/
def clientUploadFails : DingtalkClient :=
  { upload_to_dingtalk := fun _ => .error "upload failed"
    reply_markdown := fun _ _ _ => .ok "response-1" }

/-- Fixture deserializer that raises on every event. -/
def deserFails : CallbackData → Except PyErr IncomingMessage :=
  fun _ => .error "malformed event"

/-- Fixture deserializer producing the first task message. -/
def deserOfA : CallbackData → Except PyErr IncomingMessage :=
  fun _ => .ok msgTaskA

/-- Fixture raw callback payload. -/
def cb0 : CallbackData := { raw := "raw" }

/-- Fixture empty queue of capacity 128. -/
def q0 : MPQueue := { maxsize := 128, items := [] }

/-- Fixture options selecting subprocess mode. -/
def optsSub : Options := { subprocess := true, device := none }

theorem Img.paste_px_in (dst src : Img) (ox oy x y : Nat) (hx1 : ox ≤ x)
    (hx2 : x < ox + src.width) (hy1 : oy ≤ y) (hy2 : y < oy + src.height) :
    (dst.paste src ox oy).px x y = src.px (x - ox) (y - oy) := by
  simp [Img.paste, hx1, hx2, hy1, hy2]

theorem Img.paste_px_out (dst src : Img) (ox oy x y : Nat)
    (h : ¬(ox ≤ x ∧ x < ox + src.width ∧ oy ≤ y ∧ y < oy + src.height)) :
    (dst.paste src ox oy).px x y = dst.px x y := by
  simp only [Img.paste]
  rw [if_neg h]

/-- C2: in grid mode, when the engine returns four images of dimension 512 by
512, txt2img_four succeeds with a PNG-encoded 1024 by 1024 canvas whose four
quadrants at offsets (0,0), (512,0), (0,512), (512,512) carry the four returned
tiles in generation (row-major) order. -/
theorem grid_composition (pipe : Pipe) (m : IncomingMessage) (w : List Img)
    (i0 i1 i2 i3 : Img) (rest : List Img)
    (hwarm : pipe.call (pyStrip m.textContent) 512 512 (some 1) 1 = .ok w)
    (hmain : pipe.call (pyStrip m.textContent) 512 512 none 4 =
      .ok (i0 :: i1 :: i2 :: i3 :: rest))
    (h0w : i0.width = 512) (h0h : i0.height = 512)
    (h1w : i1.width = 512) (h1h : i1.height = 512)
    (h2w : i2.width = 512) (h2h : i2.height = 512)
    (h3w : i3.width = 512) (h3h : i3.height = 512) :
    ∃ enc : EncodedImage,
      txt2img_four pipe m = ([], .ok (some enc)) ∧
      enc.format = "PNG" ∧
      enc.img.width = 1024 ∧ enc.img.height = 1024 ∧
      ∀ x y, x < 512 → y < 512 →
        enc.img.px x y = i0.px x y ∧
        enc.img.px (512 + x) y = i1.px x y ∧
        enc.img.px x (512 + y) = i2.px x y ∧
        enc.img.px (512 + x) (512 + y) = i3.px x y := by
  refine ⟨EncodedImage.mk "PNG"
    (((((Img.new 1024 1024).paste i0 0 0).paste i1 512 0).paste
      i2 0 512).paste i3 512 512), ?_, rfl, rfl, rfl, ?_⟩
  · simp only [txt2img_four, hwarm, hmain]
  · intro x y hx hy
    refine ⟨?_, ?_, ?_, ?_⟩
    · rw [Img.paste_px_out _ _ _ _ _ _ (by omega),
        Img.paste_px_out _ _ _ _ _ _ (by omega),
        Img.paste_px_out _ _ _ _ _ _ (by omega),
        Img.paste_px_in _ _ _ _ _ _ (by omega) (by omega) (by omega) (by omega)]
      simp
    · rw [Img.paste_px_out _ _ _ _ _ _ (by omega),
        Img.paste_px_out _ _ _ _ _ _ (by rw [h2w]; omega),
        Img.paste_px_in _ _ _ _ _ _ (by omega) (by rw [h1w]; omega) (by omega)
          (by rw [h1h]; omega)]
      simp
    · rw [Img.paste_px_out _ _ _ _ _ _ (by omega),
        Img.paste_px_in _ _ _ _ _ _ (by omega) (by rw [h2w]; omega) (by omega)
          (by rw [h2h]; omega)]
      simp
    · rw [Img.paste_px_in _ _ _ _ _ _ (by omega) (by rw [h3w]; omega) (by omega)
        (by rw [h3h]; omega)]
      simp

/-- C2 witness: four distinct marker tiles produce a 1024 by 1024 PNG canvas
with each marker color at the documented offset. -/
theorem grid_composition_witness :
    resultFormat (txt2img_four pipeFourMarks msgRedCat) = some "PNG" ∧
    resultSize (txt2img_four pipeFourMarks msgRedCat) = some (1024, 1024) ∧
    resultPx (txt2img_four pipeFourMarks msgRedCat) 0 0 =
      some { r := 255, g := 0, b := 0 } ∧
    resultPx (txt2img_four pipeFourMarks msgRedCat) 512 0 =
      some { r := 0, g := 255, b := 0 } ∧
    resultPx (txt2img_four pipeFourMarks msgRedCat) 0 512 =
      some { r := 0, g := 0, b := 255 } ∧
    resultPx (txt2img_four pipeFourMarks msgRedCat) 512 512 =
      some { r := 255, g := 255, b := 0 } := by
  obtain ⟨enc, heq, hfmt, hw, hh, hpx⟩ :=
    grid_composition pipeFourMarks msgRedCat
      [tileOf { r := 255, g := 0, b := 0 }]
      (tileOf { r := 255, g := 0, b := 0 }) (tileOf { r := 0, g := 255, b := 0 })
      (tileOf { r := 0, g := 0, b := 255 }) (tileOf { r := 255, g := 255, b := 0 })
      [] rfl rfl rfl rfl rfl rfl rfl rfl rfl rfl
  obtain ⟨p00, p10, p01, p11⟩ := hpx 0 0 (by omega) (by omega)
  refine ⟨by simp [resultFormat, heq, hfmt], by simp [resultSize, heq, hw, hh],
    ?_, ?_, ?_, ?_⟩
  · simp only [resultPx, heq]
    simpa [tileOf] using p00
  · simp only [resultPx, heq]
    simpa [tileOf] using p10
  · simp only [resultPx, heq]
    simpa [tileOf] using p01
  · simp only [resultPx, heq]
    simpa [tileOf] using p11

theorem txt2img_error_trace (f : Bool) (pipe : Pipe) (m : IncomingMessage)
    (err : PyErr) (h : (txt2img f pipe m).2 = .error err) :
    (txt2img f pipe m).1 = [] := by
  cases f <;> simp only [txt2img, if_true, if_false, Bool.false_eq_true,
    ite_false, ite_true] at *
  · unfold txt2img_one at *
    rcases h1 : pipe.call (pyStrip m.textContent) 512 512 (some 1) 1 with e1 | w
    · simp [h1]
    rcases h2 : pipe.call (pyStrip m.textContent) 512 512 none 1 with e2 | imgs
    · simp [h1, h2]
    rcases imgs with _ | ⟨i, rest⟩ <;> simp [h1, h2]
  · unfold txt2img_four at *
    rcases h1 : pipe.call (pyStrip m.textContent) 512 512 (some 1) 1 with e1 | w
    · simp [h1]
    rcases h2 : pipe.call (pyStrip m.textContent) 512 512 none 4 with e2 | imgs
    · simp [h1, h2]
    rcases imgs with _ | ⟨i0, _ | ⟨i1, _ | ⟨i2, _ | ⟨i3, rest⟩⟩⟩⟩ <;>
      simp [h1, h2] at h ⊢

theorem pim_gen_failure (f : Bool) (pipe : Pipe) (client : DingtalkClient)
    (elapse_micros : Nat) (m : IncomingMessage) (err : PyErr)
    (h : (txt2img f pipe m).2 = .error err) :
    process_incoming_message f pipe client elapse_micros m =
      ([Event.logGetTask m, Event.logSdFailed err], .ok ()) := by
  have ht := txt2img_error_trace f pipe m err h
  rcases hx : txt2img f pipe m with ⟨t1, r1⟩
  rw [hx] at h ht
  simp only at h ht
  subst h ht
  simp [process_incoming_message, hx]

theorem pim_deliver_ok (f : Bool) (pipe : Pipe) (client : DingtalkClient)
    (elapse_micros : Nat) (m : IncomingMessage) (img : Option EncodedImage)
    (media_id response : String)
    (hgen : (txt2img f pipe m).2 = .ok img)
    (hup : client.upload_to_dingtalk img = .ok media_id)
    (hrm : client.reply_markdown "Stable Diffusion txt2img"
      (replyContent (pyStrip m.textContent) media_id (elapsedStr elapse_micros))
      m = .ok response) :
    process_incoming_message f pipe client elapse_micros m =
      ([Event.logGetTask m] ++ (txt2img f pipe m).1 ++
        [Event.uploadCall img.isSome, Event.logMediaId media_id,
          Event.replyMarkdownCall "Stable Diffusion txt2img"
            (replyContent (pyStrip m.textContent) media_id
              (elapsedStr elapse_micros)) m,
          Event.logReplyImage response], .ok ()) := by
  rcases hx : txt2img f pipe m with ⟨t1, r1⟩
  rw [hx] at hgen
  simp only at hgen
  subst hgen
  simp [process_incoming_message, hx, process_complete, CompleteTask.pyTruthy,
    reply_image, hup, hrm]

/-- C4: when the generation step raises, the worker logs the task (with its
prompt-bearing message) and the error, returns normally (the task is discarded,
no retry, no exception), and emits no upload call and no reply call of any
kind: the requester receives silence. -/
theorem generation_failure_silence (f : Bool) (pipe : Pipe)
    (client : DingtalkClient) (elapse_micros : Nat) (m : IncomingMessage)
    (err : PyErr) (h : (txt2img f pipe m).2 = .error err) :
    process_incoming_message f pipe client elapse_micros m =
      ([Event.logGetTask m, Event.logSdFailed err], .ok ()) ∧
    (∀ b, Event.uploadCall b ∉
      (process_incoming_message f pipe client elapse_micros m).1) ∧
    (∀ t c m2, Event.replyMarkdownCall t c m2 ∉
      (process_incoming_message f pipe client elapse_micros m).1) := by
  have he := pim_gen_failure f pipe client elapse_micros m err h
  refine ⟨he, ?_, ?_⟩
  · intro b
    rw [he]
    simp
  · intro t c m2
    rw [he]
    simp

/-- C4 witness: a concrete raising engine yields exactly the two log events and
a normal return, with no upload call in the trace. -/
theorem generation_failure_silence_witness :
    process_incoming_message true pipeRaises clientOk 5000000 msgRedCat =
      ([Event.logGetTask msgRedCat, Event.logSdFailed "boom"], .ok ()) ∧
    Event.uploadCall true ∉
      (process_incoming_message true pipeRaises clientOk 5000000 msgRedCat).1 := by
  have h := generation_failure_silence true pipeRaises clientOk 5000000 msgRedCat
    "boom" rfl
  exact ⟨h.1, h.2.1 true⟩

/-- C3 (amended): a generation failure on the task at the head of the queue is
caught and isolated: the worker loop goes on to process the remaining queued
tasks exactly as it would have without the failed task. -/
theorem worker_isolation_generation (f : Bool) (pipe : Pipe)
    (client : DingtalkClient) (elapse_micros : Nat) (m : IncomingMessage)
    (err : PyErr) (rest : List (IncomingMessage × Nat))
    (h : (txt2img f pipe m).2 = .error err) :
    do_sd_process f pipe client ((m, elapse_micros) :: rest) =
      ([Event.logGetTask m, Event.logSdFailed err] ++
        (do_sd_process f pipe client rest).1,
        (do_sd_process f pipe client rest).2) := by
  have he := pim_gen_failure f pipe client elapse_micros m err h
  simp only [do_sd_process, he]

/-- C3 witness: with an engine that raises on every call, the worker processes
both queued tasks, producing the failure logs of the first followed by the full
processing of the second. -/
theorem worker_isolation_generation_witness :
    do_sd_process true pipeRaises clientOk [(msgTaskA, 1), (msgTaskB, 1)] =
      ([Event.logGetTask msgTaskA, Event.logSdFailed "boom"] ++
        (do_sd_process true pipeRaises clientOk [(msgTaskB, 1)]).1,
        (do_sd_process true pipeRaises clientOk [(msgTaskB, 1)]).2) :=
  worker_isolation_generation true pipeRaises clientOk 1 msgTaskA "boom"
    [(msgTaskB, 1)] rfl

/-- C3 counterexample: a delivery failure is NOT isolated. With a working
engine and an upload call that raises, the worker loop terminates with the
uncaught upload exception after the first task, and the subsequently queued
task B is never pulled and processed (its get-task log never appears). -/
theorem worker_delivery_failure_counterexample :
    do_sd_process true pipeReplicate clientUploadFails
        [(msgTaskA, 1), (msgTaskB, 1)] =
      ([Event.logGetTask msgTaskA, Event.uploadCall true],
        Except.error "upload failed") ∧
    Event.logGetTask msgTaskB ∉
      (do_sd_process true pipeReplicate clientUploadFails
        [(msgTaskA, 1), (msgTaskB, 1)]).1 := by
  exact ⟨rfl, by decide⟩

/-- C1 (code divergence): when the engine returns only three images,
txt2img_four logs the shortfall and returns Python None, but the caller does
not treat None as a failure: process_complete runs, the upload is invoked with
no image (uploadCall false) and a markdown reply is dispatched for the
request. -/
theorem insufficient_images_reply_attempt :
    txt2img_four pipeThree msgRedCat =
      ([Event.logNotEnoughImages 3], Except.ok none) ∧
    process_incoming_message true pipeThree clientOk 1000000 msgRedCat =
      ([Event.logGetTask msgRedCat, Event.logNotEnoughImages 3,
        Event.uploadCall false, Event.logMediaId "media-1",
        Event.replyMarkdownCall "Stable Diffusion txt2img"
          (replyContent "a red cat" "media-1" "1.0") msgRedCat,
        Event.logReplyImage "response-1"], Except.ok ()) := by
  exact ⟨rfl, rfl⟩

/-- C5 (amended): an inbound event whose deserialization raises never reaches
the task queue (the queue is returned untouched), but the handler neither logs
it nor returns an acknowledgment: the exception propagates out of the handler
with an empty effect trace. -/
theorem malformed_event_propagates (subprocess f : Bool)
    (deser : CallbackData → Except PyErr IncomingMessage) (pipe : Pipe)
    (client : DingtalkClient) (elapse_micros : Nat) (q : MPQueue)
    (cb : CallbackData) (err : PyErr) (h : deser cb = .error err) :
    process subprocess f deser pipe client elapse_micros q cb =
      ([], q, ProcessOutcome.raised err) := by
  simp [process, h]

/-- C5 witness: a concrete raising deserializer leaves the queue untouched and
propagates the exception with no logging and no acknowledgment. -/
theorem malformed_event_propagates_witness :
    process true true deserFails pipeFourMarks clientOk 1 q0 cb0 =
      ([], q0, ProcessOutcome.raised "malformed event") :=
  malformed_event_propagates true true deserFails pipeFourMarks clientOk 1 q0
    cb0 "malformed event" rfl

/-- C5 counterexample: on a malformed event the handler returns no handled
acknowledgment and logs nothing — the claimed log-acknowledge-drop behavior
does not happen: the outcome is a propagated exception, distinct from the
acknowledgment returned for handled events, and the trace is empty. -/
theorem malformed_event_counterexample :
    process true true deserFails pipeFourMarks clientOk 1 q0 cb0 =
      ([], q0, ProcessOutcome.raised "malformed event") ∧
    ProcessOutcome.raised "malformed event" ≠
      ProcessOutcome.acked STATUS_OK "OK" := by
  exact ⟨rfl, by decide⟩

/-- C10: in inline (non-subprocess) mode the handler returns the same
acknowledgment STATUS_OK with text OK whether the generation step raised (the
exception is swallowed inside process_incoming_message) or the whole inline
processing succeeded. -/
theorem ack_uniform_on_generation_failure
    (deser : CallbackData → Except PyErr IncomingMessage) (cb : CallbackData)
    (m : IncomingMessage) (q : MPQueue) (hdes : deser cb = .ok m) :
    (∀ (pipe : Pipe) (client : DingtalkClient) (elapse_micros : Nat)
      (err : PyErr), (txt2img true pipe m).2 = .error err →
      (process false true deser pipe client elapse_micros q cb).2.2 =
        ProcessOutcome.acked STATUS_OK "OK") ∧
    (∀ (pipe : Pipe) (client : DingtalkClient) (elapse_micros : Nat),
      (process_incoming_message true pipe client elapse_micros m).2 = .ok () →
      (process false true deser pipe client elapse_micros q cb).2.2 =
        ProcessOutcome.acked STATUS_OK "OK") := by
  constructor
  · intro pipe client elapse_micros err hgen
    have he := pim_gen_failure true pipe client elapse_micros m err hgen
    simp [process, hdes, he]
  · intro pipe client elapse_micros hok
    rcases hx : process_incoming_message true pipe client elapse_micros m
      with ⟨t1, r1⟩
    rw [hx] at hok
    simp only at hok
    subst hok
    simp [process, hdes, hx]

/-- C10 witness: with a concrete deserializer, the acknowledgment after a
raising engine equals the acknowledgment after a fully successful inline run,
both STATUS_OK with OK. -/
theorem ack_uniform_witness :
    (process false true deserOfA pipeRaises clientOk 1 q0 cb0).2.2 =
      ProcessOutcome.acked STATUS_OK "OK" ∧
    (process false true deserOfA pipeReplicate clientOk 1 q0 cb0).2.2 =
      ProcessOutcome.acked STATUS_OK "OK" := by
  have h := ack_uniform_on_generation_failure deserOfA cb0 msgTaskA q0 rfl
  exact ⟨h.1 pipeRaises clientOk 1 "boom" rfl, h.2 pipeReplicate clientOk 1 rfl⟩

theorem put_full_blocked (q : MPQueue) (m : IncomingMessage)
    (h : q.items.length = q.maxsize) : q.put m = PutResult.blocked := by
  simp [MPQueue.put, h]

theorem process_queue_bound (subprocess f : Bool)
    (deser : CallbackData → Except PyErr IncomingMessage) (pipe : Pipe)
    (client : DingtalkClient) (elapse_micros : Nat) (q : MPQueue)
    (cb : CallbackData) (h : q.items.length ≤ q.maxsize) :
    ((process subprocess f deser pipe client elapse_micros q cb).2.1).maxsize =
      q.maxsize ∧
    ((process subprocess f deser pipe client elapse_micros q cb).2.1).items.length ≤
      q.maxsize := by
  unfold process
  rcases hd : deser cb with e | m
  · exact ⟨rfl, h⟩
  cases subprocess
  · simp only [Bool.false_eq_true, if_false]
    rcases hx : process_incoming_message f pipe client elapse_micros m
      with ⟨t1, r1⟩
    rcases r1 with e | u
    · exact ⟨rfl, h⟩
    · exact ⟨rfl, h⟩
  · simp only [if_true]
    unfold MPQueue.put
    by_cases hlt : q.items.length < q.maxsize
    · rw [if_pos hlt]
      constructor
      · rfl
      · simp only [List.length_append, List.length_cons, List.length_nil]
        omega
    · rw [if_neg hlt]
      exact ⟨rfl, h⟩

theorem get_queue_bound (q : MPQueue) (m : IncomingMessage) (q2 : MPQueue)
    (h : q.get = some (m, q2)) :
    q2.maxsize = q.maxsize ∧ q2.items.length ≤ q.items.length := by
  unfold MPQueue.get at h
  rcases hi : q.items with _ | ⟨a, rest⟩
  · rw [hi] at h
    simp at h
  · rw [hi] at h
    simp only [Option.some.injEq, Prod.mk.injEq] at h
    rw [← h.2]
    simp [hi]

/-- C6: in every bot state reachable from construction, the task queue has the
fixed capacity 128, never holds more than 128 pending requests, and a put on a
full queue blocks the producer instead of rejecting the request. -/
theorem queue_capacity (options : Options) (s : BotState)
    (h : Reachable (StableDiffusionBot.init options) s) :
    s.taskQueue.maxsize = 128 ∧ s.taskQueue.items.length ≤ 128 ∧
    ∀ m, s.taskQueue.items.length = 128 → s.taskQueue.put m = PutResult.blocked := by
  have main : s.taskQueue.maxsize = 128 ∧ s.taskQueue.items.length ≤ 128 := by
    induction h with
    | refl => exact ⟨rfl, by simp [StableDiffusionBot.init]⟩
    | @step s1 t1 hr hstep ih =>
      cases hstep with
      | ingest deser pipe client elapse_micros cb =>
        have hb := process_queue_bound s1.subprocess s1.enableFourImages deser
          pipe client elapse_micros s1.taskQueue cb
          (by rw [ih.1]; exact ih.2)
        exact ⟨hb.1.trans ih.1, ih.1 ▸ hb.2⟩
      | workerStart => exact ih
      | workerGet m q hg =>
        have hb := get_queue_bound s1.taskQueue m q hg
        exact ⟨hb.1.trans ih.1, le_trans hb.2 ih.2⟩
  refine ⟨main.1, main.2, fun m hm => ?_⟩
  exact put_full_blocked s.taskQueue m (by omega)

/-- C6 witness: the freshly constructed bot satisfies the reachable-state queue
invariant, with capacity 128 and an empty queue. -/
theorem queue_capacity_witness :
    (StableDiffusionBot.init optsSub).taskQueue.maxsize = 128 ∧
    (StableDiffusionBot.init optsSub).taskQueue.items.length ≤ 128 := by
  have h := queue_capacity optsSub (StableDiffusionBot.init optsSub)
    Reachable.refl
  exact ⟨h.1, h.2.1⟩

/-- C9: the grid-mode flag is True at construction and in every reachable bot
state, so txt2img always takes the four-image path: with the flag of any
reachable state it coincides with txt2img_four on every engine and message. -/
theorem four_images_flag_invariant (options : Options) (s : BotState)
    (h : Reachable (StableDiffusionBot.init options) s) :
    s.enableFourImages = true ∧
    ∀ (pipe : Pipe) (m : IncomingMessage),
      txt2img s.enableFourImages pipe m = txt2img_four pipe m := by
  have hflag : s.enableFourImages = true := by
    induction h with
    | refl => rfl
    | @step s1 t1 hr hstep ih =>
      cases hstep with
      | ingest deser pipe client elapse_micros cb => exact ih
      | workerStart => exact ih
      | workerGet m q hg => exact ih
  refine ⟨hflag, fun pipe m => ?_⟩
  rw [hflag]
  rfl

/-- C9 witness: in the construction state the flag is True and txt2img with the
state flag equals txt2img_four on a concrete engine and message. -/
theorem four_images_flag_invariant_witness :
    (StableDiffusionBot.init optsSub).enableFourImages = true ∧
    txt2img (StableDiffusionBot.init optsSub).enableFourImages pipeFourMarks
        msgRedCat =
      txt2img_four pipeFourMarks msgRedCat := by
  have h := four_images_flag_invariant optsSub (StableDiffusionBot.init optsSub)
    Reachable.refl
  exact ⟨h.1, h.2 pipeFourMarks msgRedCat⟩

/-- C7: for every successfully completed task, the reply body handed to the
dispatch call embeds the whitespace-stripped prompt after the fixed prompt
header, an inline image reference to the uploaded media id, and the fixed
attribution text. -/
theorem reply_embeds_trimmed_prompt (pipe : Pipe) (client : DingtalkClient)
    (elapse_micros : Nat) (m : IncomingMessage) (img : Option EncodedImage)
    (media_id response : String)
    (hgen : (txt2img true pipe m).2 = .ok img)
    (hup : client.upload_to_dingtalk img = .ok media_id)
    (hrm : client.reply_markdown "Stable Diffusion txt2img"
      (replyContent (pyStrip m.textContent) media_id (elapsedStr elapse_micros))
      m = .ok response) :
    Event.replyMarkdownCall "Stable Diffusion txt2img"
        (replyContent (pyStrip m.textContent) media_id
          (elapsedStr elapse_micros)) m ∈
      (process_incoming_message true pipe client elapse_micros m).1 ∧
    (∃ s1, replyContent (pyStrip m.textContent) media_id
        (elapsedStr elapse_micros) =
      "#### Prompts: " ++ pyStrip m.textContent ++ s1) ∧
    (∃ s2 s3, replyContent (pyStrip m.textContent) media_id
        (elapsedStr elapse_micros) =
      s2 ++ ("![image](" ++ media_id ++ ")") ++ s3) ∧
    (∃ s4 s5, replyContent (pyStrip m.textContent) media_id
        (elapsedStr elapse_micros) =
      s4 ++ "Powered by Stable Diffusion" ++ s5) := by
  have hpim := pim_deliver_ok true pipe client elapse_micros m img media_id
    response hgen hup hrm
  refine ⟨?_, ?_, ?_, ?_⟩
  · rw [hpim]
    simp
  · refine ⟨("\n\n" ++ "![image](" ++ media_id ++ ")" ++ "\n\n" ++ "> cost " ++
      elapsedStr elapse_micros ++ "s" ++ "\n" ++ "> \n" ++ "> " ++
      "Powered by Stable Diffusion" ++ "\n" ++ "> \n" ++
      "> via https://github.com/chzealot/dingtalk-stable-diffusion\n"), ?_⟩
    apply String.ext
    simp only [replyContent, String.data_append, List.append_assoc]
  · refine ⟨("#### Prompts: " ++ pyStrip m.textContent ++ "\n\n"),
      ("\n\n" ++ "> cost " ++ elapsedStr elapse_micros ++ "s" ++ "\n" ++
        "> \n" ++ "> " ++ "Powered by Stable Diffusion" ++ "\n" ++ "> \n" ++
        "> via https://github.com/chzealot/dingtalk-stable-diffusion\n"), ?_⟩
    apply String.ext
    simp only [replyContent, String.data_append, List.append_assoc]
  · refine ⟨("#### Prompts: " ++ pyStrip m.textContent ++ "\n\n" ++
      "![image](" ++ media_id ++ ")" ++ "\n\n" ++ "> cost " ++
      elapsedStr elapse_micros ++ "s" ++ "\n" ++ "> \n" ++ "> "),
      ("\n" ++ "> \n" ++
        "> via https://github.com/chzealot/dingtalk-stable-diffusion\n"), ?_⟩
    apply String.ext
    simp only [replyContent, String.data_append, List.append_assoc]

/-- C7 witness: the prompt with surrounding whitespace is embedded stripped in
the dispatched reply body of a concrete successful run. -/
theorem reply_embeds_trimmed_prompt_witness :
    Event.replyMarkdownCall "Stable Diffusion txt2img"
        (replyContent "a blue sky" "media-1" "1.0") msgBlueSky ∈
      (process_incoming_message true pipeReplicate clientOk 1000000
        msgBlueSky).1 := by
  obtain ⟨img, hgen⟩ : ∃ img, (txt2img true pipeReplicate msgBlueSky).2 =
      .ok img := ⟨_, rfl⟩
  have h := reply_embeds_trimmed_prompt pipeReplicate clientOk 1000000
    msgBlueSky img "media-1" "response-1" hgen rfl rfl
  exact h.1

theorem fracDigitsStr_length (k : Nat) :
    1 ≤ (fracDigitsStr k).length ∧ (fracDigitsStr k).length ≤ 3 := by
  unfold fracDigitsStr
  split_ifs <;> refine ⟨?_, ?_⟩ <;>
    first
      | decide
      | (simp only [String.length_mk, List.length_cons, List.length_nil]; omega)

/-- C8 (amended): the elapsed time embedded in the reply body is the str()
rendering of round(elapse_seconds, 3): an integer part, a decimal point, and
between one and three fractional digits (trailing zeros are dropped), so at
most three decimal digits but not always exactly three. -/
theorem elapsed_digit_bounds (prompt media_id : String) (elapse_micros : Nat) :
    ∃ a b s1 s2,
      elapsedStr elapse_micros = a ++ "." ++ b ∧
      1 ≤ b.length ∧ b.length ≤ 3 ∧
      replyContent prompt media_id (elapsedStr elapse_micros) =
        s1 ++ ("> cost " ++ (a ++ "." ++ b) ++ "s") ++ s2 := by
  refine ⟨toString (roundMillis elapse_micros / 1000),
    fracDigitsStr (roundMillis elapse_micros % 1000),
    ("#### Prompts: " ++ prompt ++ "\n\n" ++ "![image](" ++ media_id ++ ")" ++
      "\n\n"),
    ("\n" ++ "> \n" ++ "> " ++ "Powered by Stable Diffusion" ++ "\n" ++
      "> \n" ++ "> via https://github.com/chzealot/dingtalk-stable-diffusion\n"),
    rfl, (fracDigitsStr_length _).1, (fracDigitsStr_length _).2, ?_⟩
  apply String.ext
  simp only [replyContent, elapsedStr, floatStr3, String.data_append,
    List.append_assoc]

/-- C8 counterexample: an elapsed time of exactly two seconds is rendered as
2.0 inside the delivered body — one decimal digit, not three. -/
theorem elapsed_three_digits_counterexample :
    elapsedStr 2000000 = "2.0" ∧
    replyContent "a red cat" "media-1" (elapsedStr 2000000) =
      "#### Prompts: a red cat\n\n![image](media-1)\n\n> cost 2.0s\n> \n> Powered by Stable Diffusion\n> \n> via https://github.com/chzealot/dingtalk-stable-diffusion\n" ∧
    decimalDigitCount (elapsedStr 2000000) = 1 ∧
    decimalDigitCount (elapsedStr 2000000) ≠ 3 := by
  exact ⟨by decide, by decide, by decide, by decide⟩

end DingtalkSD
